import Mathlib

/-!
Verification of the niigaki-core billing subsystem.

Shallow embedding of the billing-status state machine
(src/billing/types/billing-status.ts), the subscription service
(SubscriptionService), the ASAAS webhook dispatcher (WebhookHandler),
the access projection (BillingEnforcer), and the webhook dedup ledger.

Modelling conventions:
- Dates and timestamps are integer milliseconds since the epoch.
- The per-tenant billing store adapter is modelled as an
  Option TenantBillingData value threaded through each operation
  (the spec treats tenants as independent units; read-after-write
  consistency per tenant is assumed).
- Thrown exceptions are modelled as values of the BillingError type;
  an operation returns the final stored record together with the
  error, mirroring which store writes happened before the throw.
-/

/-- Billing status enum from src/billing/types/billing-status.ts. -/
inductive BillingStatus where
  | trial
  | active
  | pending_payment
  | overdue
  | suspended
  | canceled
deriving DecidableEq, Repr, Fintype

/-- Valid-transition adjacency table (billingStatusTransitions). -/
def billingStatusTransitions : BillingStatus → List BillingStatus
  | .trial => [.active, .pending_payment, .canceled]
  | .pending_payment => [.active, .overdue, .canceled]
  | .active => [.overdue, .canceled]
  | .overdue => [.active, .suspended, .canceled]
  | .suspended => [.active, .canceled]
  | .canceled => []

/-- isValidTransition from src/billing/types/billing-status.ts. -/
def isValidTransition (fromStatus toStatus : BillingStatus) : Bool :=
  (billingStatusTransitions fromStatus).contains toStatus

/-- hasFullAccess from src/billing/types/billing-status.ts. -/
def hasFullAccess (status : BillingStatus) : Bool :=
  status = BillingStatus.active || status = BillingStatus.trial

/-- hasLimitedAccess from src/billing/types/billing-status.ts. -/
def hasLimitedAccess (status : BillingStatus) : Bool :=
  status = BillingStatus.overdue || status = BillingStatus.pending_payment

/-- hasAnyAccess from src/billing/types/billing-status.ts. -/
def hasAnyAccess (status : BillingStatus) : Bool :=
  hasFullAccess status || hasLimitedAccess status

/-- The adjacency rows exactly as the specification states them,
written as an explicit list of allowed (from, to) pairs. -/
def specAdjacencyPairs : List (BillingStatus × BillingStatus) :=
  [(.trial, .active), (.trial, .pending_payment), (.trial, .canceled),
   (.pending_payment, .active), (.pending_payment, .overdue), (.pending_payment, .canceled),
   (.active, .overdue), (.active, .canceled),
   (.overdue, .active), (.overdue, .suspended), (.overdue, .canceled),
   (.suspended, .active), (.suspended, .canceled)]

/-- Subscription metadata stored with a tenant
(src/billing/types/billing-plan.ts, SubscriptionMetadata).
Date-valued fields are integer milliseconds; the open-ended custom map
carries no behaviour in the modelled code and is not represented. -/
structure SubscriptionMetadata where
  planId : String
  planName : String
  priceInCents : Int
  currency : String
  cycle : String
  trialEndDate : Option Int := none
  nextBillingDate : Option Int := none
  lastPaymentDate : Option Int := none
  daysOverdue : Option Int := none
deriving DecidableEq, Repr

/-- Tenant billing record (subscription-service, TenantBillingData). -/
structure TenantBillingData where
  id : String
  asaasCustomerId : Option String := none
  asaasSubscriptionId : Option String := none
  billingStatus : BillingStatus
  subscriptionMetadata : Option SubscriptionMetadata := none
deriving DecidableEq, Repr

/-- Errors raised by the billing core (src/billing/billing-errors.ts),
restricted to the structured data the claims are about. -/
inductive BillingError where
  | invalidTransition (fromStatus toStatus : BillingStatus)
  | billingStatusInvalid (status : BillingStatus) (message : String)
  | webhookInvalid (message : String) (eventType : Option String)
  | subscriptionCancellation (subscriptionId : String) (message : String)
  | asaasApi (message : String)
deriving DecidableEq, Repr

/-- ASAAS subscription response (src/billing/dtos/subscription.dto.ts,
AsaasSubscriptionResponse); fields that the modelled code never reads are
not represented.  status is kept as a raw string, mirroring the runtime
switch on the wire value. -/
structure AsaasSubscriptionResponse where
  id : String
  customer : String
  status : String
  deleted : Bool
  nextDueDate : Option Int := none
deriving DecidableEq, Repr

namespace SubscriptionService

/-- mapAsaasStatusToBillingStatus from SubscriptionService. -/
def mapAsaasStatusToBillingStatus (subscription : AsaasSubscriptionResponse)
    (currentStatus : BillingStatus) : BillingStatus :=
  if subscription.deleted then BillingStatus.canceled
  else if subscription.status = "ACTIVE" then
    -- If currently in trial or pending, keep that status
    if currentStatus = BillingStatus.trial ∨ currentStatus = BillingStatus.pending_payment then
      currentStatus
    else BillingStatus.active
  else if subscription.status = "INACTIVE" then BillingStatus.suspended
  else if subscription.status = "EXPIRED" then BillingStatus.canceled
  else currentStatus

/-- updateBillingStatus from SubscriptionService: skip (ok none) when the
status is unchanged, write the new status (ok (some newStatus)) when the
transition is valid, and raise InvalidBillingTransitionError otherwise. -/
def updateBillingStatus (currentStatus newStatus : BillingStatus) :
    Except BillingError (Option BillingStatus) :=
  if currentStatus = newStatus then Except.ok none
  else if isValidTransition currentStatus newStatus then Except.ok (some newStatus)
  else Except.error (BillingError.invalidTransition currentStatus newStatus)

/-- Apply the optional status write of updateBillingStatus to the record. -/
def applyStatusUpdate (tb : TenantBillingData) (upd : Option BillingStatus) :
    TenantBillingData :=
  match upd with
  | some s => { tb with billingStatus := s }
  | none => tb

/-- The metadata write at the end of handlePaymentOverdue: set daysOverdue
when the record carries subscription metadata, otherwise leave it alone. -/
def applyMetadataDaysOverdue (tb : TenantBillingData) (d : Int) : TenantBillingData :=
  match tb.subscriptionMetadata with
  | some md => { tb with subscriptionMetadata := some { md with daysOverdue := some d } }
  | none => tb

/-- Target status chosen by handlePaymentOverdue; the threshold
daysUntilSuspension defaults to 15 in the service constructor. -/
def overdueTarget (daysUntilSuspension daysOverdue : Int) : BillingStatus :=
  if daysUntilSuspension ≤ daysOverdue then BillingStatus.suspended
  else BillingStatus.overdue

/-- handlePaymentOverdue from SubscriptionService.  Returns the final
stored record and the raised error, if any.  The status transition is
attempted before the metadata write, so a thrown
InvalidBillingTransitionError leaves the metadata untouched. -/
def handlePaymentOverdue (daysUntilSuspension : Int)
    (store : Option TenantBillingData) (daysOverdue : Int) :
    Option TenantBillingData × Option BillingError :=
  match store with
  | none => (none, some (BillingError.billingStatusInvalid BillingStatus.canceled "Tenant not found"))
  | some tb =>
    let newStatus := overdueTarget daysUntilSuspension daysOverdue
    if tb.billingStatus ≠ newStatus then
      match updateBillingStatus tb.billingStatus newStatus with
      | Except.error e => (some tb, some e)
      | Except.ok upd =>
        (some (applyMetadataDaysOverdue (applyStatusUpdate tb upd) daysOverdue), none)
    else
      (some (applyMetadataDaysOverdue tb daysOverdue), none)

/-- handlePaymentConfirmed from SubscriptionService: transition to active,
then set lastPaymentDate and clear daysOverdue when metadata exists. -/
def handlePaymentConfirmed (store : Option TenantBillingData) (paymentDate : Int) :
    Option TenantBillingData × Option BillingError :=
  match store with
  | none => (none, some (BillingError.billingStatusInvalid BillingStatus.canceled "Tenant not found"))
  | some tb =>
    match updateBillingStatus tb.billingStatus BillingStatus.active with
    | Except.error e => (some tb, some e)
    | Except.ok upd =>
      let tb1 := applyStatusUpdate tb upd
      match tb1.subscriptionMetadata with
      | some md =>
        let md1 := { md with lastPaymentDate := some paymentDate, daysOverdue := none }
        (some { tb1 with subscriptionMetadata := some md1 }, none)
      | none => (some tb1, none)

/-- cancelSubscription from SubscriptionService.  cancelRemoteOk models the
ASAAS client call succeeding for a given subscription id. -/
def cancelSubscription (cancelRemoteOk : String → Bool)
    (store : Option TenantBillingData) :
    Option TenantBillingData × Except BillingError Unit :=
  match store with
  | none =>
    (none, Except.error (BillingError.subscriptionCancellation "unknown" "Tenant not found"))
  | some tb =>
    match tb.asaasSubscriptionId with
    | none =>
      (some tb, Except.error
        (BillingError.subscriptionCancellation "unknown" "Tenant has no active subscription"))
    | some sid =>
      if isValidTransition tb.billingStatus BillingStatus.canceled then
        if cancelRemoteOk sid then
          (some { tb with billingStatus := BillingStatus.canceled }, Except.ok ())
        else
          (some tb, Except.error
            (BillingError.subscriptionCancellation sid "Failed to cancel subscription"))
      else
        (some tb, Except.error
          (BillingError.invalidTransition tb.billingStatus BillingStatus.canceled))

/-- syncSubscriptionStatus from SubscriptionService.  getSubscription
models the ASAAS client fetch (none = client error). -/
def syncSubscriptionStatus (getSubscription : String → Option AsaasSubscriptionResponse)
    (store : Option TenantBillingData) :
    Option TenantBillingData × Except BillingError TenantBillingData :=
  match store with
  | none =>
    (none, Except.error (BillingError.billingStatusInvalid BillingStatus.canceled "Tenant not found"))
  | some tb =>
    match tb.asaasSubscriptionId with
    | none => (some tb, Except.ok tb)
    | some sid =>
      match getSubscription sid with
      | none => (some tb, Except.error (BillingError.asaasApi "Failed to fetch subscription"))
      | some sub =>
        let newStatus := mapAsaasStatusToBillingStatus sub tb.billingStatus
        match (if newStatus ≠ tb.billingStatus
               then updateBillingStatus tb.billingStatus newStatus
               else Except.ok none) with
        | Except.error e => (some tb, Except.error e)
        | Except.ok upd =>
          let tb1 := applyStatusUpdate tb upd
          match tb1.subscriptionMetadata, sub.nextDueDate with
          | some md, some nd =>
            let tb2 := { tb1 with subscriptionMetadata := some { md with nextBillingDate := some nd } }
            (some tb2, Except.ok tb2)
          | _, _ => (some tb1, Except.ok tb1)

end SubscriptionService

/-- The AsaasEventType enum values (src/billing/types/asaas-events.ts). -/
def asaasEventTypeValues : List String :=
  ["PAYMENT_CREATED", "PAYMENT_AWAITING_RISK_ANALYSIS", "PAYMENT_APPROVED_BY_RISK_ANALYSIS",
   "PAYMENT_REPROVED_BY_RISK_ANALYSIS", "PAYMENT_UPDATED", "PAYMENT_CONFIRMED",
   "PAYMENT_RECEIVED", "PAYMENT_ANTICIPATED", "PAYMENT_OVERDUE", "PAYMENT_DELETED",
   "PAYMENT_RESTORED", "PAYMENT_REFUNDED", "PAYMENT_RECEIVED_IN_CASH_UNDONE",
   "PAYMENT_CHARGEBACK_REQUESTED", "PAYMENT_CHARGEBACK_DISPUTE",
   "PAYMENT_AWAITING_CHARGEBACK_REVERSAL", "PAYMENT_DUNNING_RECEIVED",
   "PAYMENT_DUNNING_REQUESTED",
   "SUBSCRIPTION_CREATED", "SUBSCRIPTION_ACTIVATED", "SUBSCRIPTION_UPDATED",
   "SUBSCRIPTION_CANCELED", "SUBSCRIPTION_RENEWED",
   "TRANSFER_CREATED", "TRANSFER_PENDING", "TRANSFER_IN_BANK_PROCESSING",
   "TRANSFER_BLOCKED", "TRANSFER_DONE", "TRANSFER_FAILED", "TRANSFER_CANCELLED",
   "INVOICE_CREATED", "INVOICE_UPDATED", "INVOICE_SYNCHRONIZED", "INVOICE_AUTHORIZED",
   "INVOICE_PROCESSING_CANCELLATION", "INVOICE_CANCELED", "INVOICE_CANCELLATION_DENIED",
   "INVOICE_ERROR"]

/-- isAsaasEventType from src/billing/types/asaas-events.ts. -/
def isAsaasEventType (value : String) : Bool :=
  asaasEventTypeValues.contains value

/-- isPaymentEvent: the event type string begins with PAYMENT_ (the
TypeScript uses String.startsWith; modelled as a character-list check). -/
def isPaymentEvent (eventType : String) : Bool :=
  List.isPrefixOf "PAYMENT_".data eventType.data

/-- isSubscriptionEvent: the event type string begins with SUBSCRIPTION_. -/
def isSubscriptionEvent (eventType : String) : Bool :=
  List.isPrefixOf "SUBSCRIPTION_".data eventType.data

/-- ASAAS payment payload (src/billing/types/asaas-events.ts,
AsaasPaymentPayload).  Only the fields the handlers read are kept;
date strings are parsed integer milliseconds. -/
structure AsaasPaymentPayload where
  id : String
  customer : String
  subscription : Option String := none
  value : Int := 0
  dueDate : Int
  confirmedDate : Option Int := none
deriving DecidableEq, Repr

/-- ASAAS subscription payload carried by subscription webhooks
(src/billing/types/asaas-events.ts, AsaasSubscriptionPayload). -/
structure AsaasSubscriptionPayload where
  id : String
  customer : String
  value : Int := 0
  status : String
  deleted : Bool := false
  nextDueDate : Option Int := none
deriving DecidableEq, Repr

/-- An inbound webhook event (AsaasWebhookEvent).  The event type is a raw
string: the dispatcher re-validates it against the known enum values. -/
structure AsaasWebhookEvent where
  event : String
  payment : Option AsaasPaymentPayload := none
  subscription : Option AsaasSubscriptionPayload := none
deriving DecidableEq, Repr

/-- Processing result returned by the dispatcher
(WebhookProcessingResult); the error carries the structured error value
whose message the TypeScript result reports. -/
structure WebhookProcessingResult where
  success : Bool
  eventType : String
  tenantId : Option String := none
  action : Option String := none
  error : Option BillingError := none
deriving DecidableEq, Repr

/-- Environment of the webhook handler: its configuration together with
the external collaborators (tenant resolution, ASAAS client).  Tenant
resolution is modelled against the single threaded tenant record: an id
in subscriptionIds or customerIds resolves to that record. -/
structure BillingEnv where
  webhookAccessToken : Option String := none
  daysUntilSuspension : Int := 15
  daysUntilOverdueStatus : Int := 1
  nowMs : Int
  subscriptionIds : List String := []
  customerIds : List String := []
  getSubscription : String → Option AsaasSubscriptionResponse := fun _ => none
  cancelRemoteOk : String → Bool := fun _ => true

namespace WebhookHandler

/-- validateAccessToken: no configured token (or the empty string, which
is falsy in the TypeScript guard) skips validation; otherwise the provided
token must equal the configured one. -/
def validateAccessToken (configuredToken : Option String) (token : Option String) : Bool :=
  match configuredToken with
  | none => true
  | some ct => if ct = "" then true else token = some ct

/-- The daysOverdue computation in WebhookHandler.handlePaymentOverdue:
max(0, floor((now - dueDate) / millisecondsPerDay)). -/
def webhookDaysOverdue (nowMs dueMs : Int) : Int :=
  max 0 (Int.fdiv (nowMs - dueMs) 86400000)

/-- Tenant resolution for payment events: by the subscription id on the
payment when present, falling back to the customer id. -/
def resolvePaymentTenant (env : BillingEnv) (store : Option TenantBillingData)
    (payment : AsaasPaymentPayload) : Option TenantBillingData :=
  let bySub := match payment.subscription with
    | some sid => if env.subscriptionIds.contains sid then store else none
    | none => none
  match bySub with
  | some t => some t
  | none => if env.customerIds.contains payment.customer then store else none

/-- Tenant resolution for subscription events: by the subscription id,
falling back to the customer id. -/
def resolveSubscriptionTenant (env : BillingEnv) (store : Option TenantBillingData)
    (subscription : AsaasSubscriptionPayload) : Option TenantBillingData :=
  let bySub := if env.subscriptionIds.contains subscription.id then store else none
  match bySub with
  | some t => some t
  | none => if env.customerIds.contains subscription.customer then store else none

/-- Outcome of a single handler: final store state plus either a result or
the error it threw (caught only at the handleEvent boundary). -/
abbrev HandlerOutcome := Option TenantBillingData × Except BillingError WebhookProcessingResult

/-- handlePaymentCreated: log only, no status change. -/
def handlePaymentCreated (store : Option TenantBillingData) (tenant : TenantBillingData)
    (_payment : AsaasPaymentPayload) : HandlerOutcome :=
  (store, Except.ok { success := true, eventType := "PAYMENT_CREATED",
                      tenantId := some tenant.id, action := some "payment_registered" })

/-- handlePaymentConfirmed at the webhook level: payment date from
confirmedDate when present, else now; delegates to the service. -/
def handlePaymentConfirmed (env : BillingEnv) (store : Option TenantBillingData)
    (tenant : TenantBillingData) (payment : AsaasPaymentPayload) : HandlerOutcome :=
  let paymentDate := payment.confirmedDate.getD env.nowMs
  match SubscriptionService.handlePaymentConfirmed store paymentDate with
  | (st, none) =>
    (st, Except.ok { success := true, eventType := "PAYMENT_CONFIRMED",
                     tenantId := some tenant.id, action := some "tenant_activated" })
  | (st, some e) => (st, Except.error e)

/-- handlePaymentOverdue at the webhook level: compute daysOverdue from
the due date, delegate to the service, and report the action. -/
def handlePaymentOverdue (env : BillingEnv) (store : Option TenantBillingData)
    (tenant : TenantBillingData) (payment : AsaasPaymentPayload) : HandlerOutcome :=
  let daysOverdue := webhookDaysOverdue env.nowMs payment.dueDate
  match SubscriptionService.handlePaymentOverdue env.daysUntilSuspension store daysOverdue with
  | (st, none) =>
    (st, Except.ok { success := true, eventType := "PAYMENT_OVERDUE",
                     tenantId := some tenant.id,
                     action := some (if env.daysUntilOverdueStatus ≤ daysOverdue
                                     then "tenant_overdue" else "overdue_warning") })
  | (st, some e) => (st, Except.error e)

/-- handlePaymentRefunded: log only, no status change. -/
def handlePaymentRefunded (store : Option TenantBillingData) (tenant : TenantBillingData)
    (_payment : AsaasPaymentPayload) : HandlerOutcome :=
  (store, Except.ok { success := true, eventType := "PAYMENT_REFUNDED",
                      tenantId := some tenant.id, action := some "refund_registered" })

/-- handleSubscriptionActivated: full sync; errors propagate. -/
def handleSubscriptionActivated (env : BillingEnv) (store : Option TenantBillingData)
    (tenant : TenantBillingData) : HandlerOutcome :=
  match SubscriptionService.syncSubscriptionStatus env.getSubscription store with
  | (st, Except.ok _) =>
    (st, Except.ok { success := true, eventType := "SUBSCRIPTION_ACTIVATED",
                     tenantId := some tenant.id, action := some "subscription_synced" })
  | (st, Except.error e) => (st, Except.error e)

/-- handleSubscriptionCanceled: try cancelSubscription; on any failure,
fall back to syncSubscriptionStatus (whose own error, if any, escapes the
catch block and propagates). -/
def handleSubscriptionCanceled (env : BillingEnv) (store : Option TenantBillingData)
    (tenant : TenantBillingData) : HandlerOutcome :=
  match SubscriptionService.cancelSubscription env.cancelRemoteOk store with
  | (st, Except.ok _) =>
    (st, Except.ok { success := true, eventType := "SUBSCRIPTION_CANCELED",
                     tenantId := some tenant.id, action := some "tenant_canceled" })
  | (st, Except.error _) =>
    match SubscriptionService.syncSubscriptionStatus env.getSubscription st with
    | (st2, Except.ok _) =>
      (st2, Except.ok { success := true, eventType := "SUBSCRIPTION_CANCELED",
                        tenantId := some tenant.id, action := some "tenant_canceled" })
    | (st2, Except.error e) => (st2, Except.error e)

/-- handleSubscriptionUpdated (also SUBSCRIPTION_RENEWED): full sync. -/
def handleSubscriptionUpdated (env : BillingEnv) (store : Option TenantBillingData)
    (tenant : TenantBillingData) : HandlerOutcome :=
  match SubscriptionService.syncSubscriptionStatus env.getSubscription store with
  | (st, Except.ok _) =>
    (st, Except.ok { success := true, eventType := "SUBSCRIPTION_UPDATED",
                     tenantId := some tenant.id, action := some "subscription_updated" })
  | (st, Except.error e) => (st, Except.error e)

/-- handlePaymentEvent: require the payload, resolve the tenant, and route
by event type; known payment events with no dedicated handler are
acknowledged as payment_event_ignored. -/
def handlePaymentEvent (env : BillingEnv) (store : Option TenantBillingData)
    (eventType : String) (payment : Option AsaasPaymentPayload) : HandlerOutcome :=
  match payment with
  | none =>
    (store, Except.error
      (BillingError.webhookInvalid "Payment payload is required for payment events" (some eventType)))
  | some p =>
    match resolvePaymentTenant env store p with
    | none =>
      (store, Except.ok { success := true, eventType := eventType,
                          action := some "tenant_not_found" })
    | some tenant =>
      if eventType = "PAYMENT_CREATED" then handlePaymentCreated store tenant p
      else if eventType = "PAYMENT_CONFIRMED" ∨ eventType = "PAYMENT_RECEIVED" then
        handlePaymentConfirmed env store tenant p
      else if eventType = "PAYMENT_OVERDUE" then handlePaymentOverdue env store tenant p
      else if eventType = "PAYMENT_REFUNDED" then handlePaymentRefunded store tenant p
      else
        (store, Except.ok { success := true, eventType := eventType,
                            tenantId := some tenant.id,
                            action := some "payment_event_ignored" })

/-- handleSubscriptionEvent: require the payload, resolve the tenant, and
route by event type. -/
def handleSubscriptionEvent (env : BillingEnv) (store : Option TenantBillingData)
    (eventType : String) (subscription : Option AsaasSubscriptionPayload) : HandlerOutcome :=
  match subscription with
  | none =>
    (store, Except.error
      (BillingError.webhookInvalid "Subscription payload is required for subscription events"
        (some eventType)))
  | some s =>
    match resolveSubscriptionTenant env store s with
    | none =>
      (store, Except.ok { success := true, eventType := eventType,
                          action := some "tenant_not_found" })
    | some tenant =>
      if eventType = "SUBSCRIPTION_ACTIVATED" then handleSubscriptionActivated env store tenant
      else if eventType = "SUBSCRIPTION_CANCELED" then handleSubscriptionCanceled env store tenant
      else if eventType = "SUBSCRIPTION_UPDATED" ∨ eventType = "SUBSCRIPTION_RENEWED" then
        handleSubscriptionUpdated env store tenant
      else
        (store, Except.ok { success := true, eventType := eventType,
                            tenantId := some tenant.id,
                            action := some "subscription_event_ignored" })

/-- handleEvent from src/billing/webhook-handler.ts: validate the access
token, validate the event type, classify by prefix, route; any error
thrown below is caught here and returned as a success=false result. -/
def handleEvent (env : BillingEnv) (store : Option TenantBillingData)
    (event : AsaasWebhookEvent) (accessToken : Option String) :
    Option TenantBillingData × WebhookProcessingResult :=
  let outcome : HandlerOutcome :=
    if validateAccessToken env.webhookAccessToken accessToken then
      if isAsaasEventType event.event then
        if isPaymentEvent event.event then
          handlePaymentEvent env store event.event event.payment
        else if isSubscriptionEvent event.event then
          handleSubscriptionEvent env store event.event event.subscription
        else
          (store, Except.ok { success := true, eventType := event.event,
                              action := some "ignored" })
      else
        (store, Except.error (BillingError.webhookInvalid "Unknown event type" (some event.event)))
    else
      (store, Except.error (BillingError.webhookInvalid "Invalid webhook access token" none))
  match outcome with
  | (st, Except.ok r) => (st, r)
  | (st, Except.error e) =>
    (st, { success := false, eventType := event.event, error := some e })

end WebhookHandler

/-- Billing enforcement context (src/billing/billing-enforcer,
BillingContext). -/
structure BillingContext where
  tenantId : String
  billingStatus : BillingStatus
  subscriptionActive : Bool
  inTrial : Bool
  isOverdue : Bool
  isSuspended : Bool
  daysOverdue : Option Int := none
deriving DecidableEq, Repr

namespace BillingEnforcer

/-- getBillingContext from BillingEnforcer: a pure projection of the
tenant record into the access context. -/
def getBillingContext (billing : Option TenantBillingData) : Option BillingContext :=
  match billing with
  | none => none
  | some b =>
    some { tenantId := b.id,
           billingStatus := b.billingStatus,
           subscriptionActive := hasFullAccess b.billingStatus,
           inTrial := b.billingStatus = BillingStatus.trial,
           isOverdue := b.billingStatus = BillingStatus.overdue,
           isSuspended := b.billingStatus = BillingStatus.suspended
                          ∨ b.billingStatus = BillingStatus.canceled,
           daysOverdue := b.subscriptionMetadata.bind SubscriptionMetadata.daysOverdue }

end BillingEnforcer

/-- Processing status of a ledger entry (webhook_status enum in
database/migrations/008_create_webhook_events.sql). -/
inductive WebhookStatus where
  | pending
  | processing
  | processed
  | failed
  | ignored
deriving DecidableEq, Repr

/-- A row of the webhook_events dedup ledger
(database/migrations/008_create_webhook_events.sql). -/
structure WebhookEventRecord where
  id : Nat
  source : String
  externalEventId : Option String := none
  eventType : String
  payload : String := ""
  status : WebhookStatus := WebhookStatus.pending
  attempts : Nat := 0
  maxAttempts : Nat := 3
  processedAt : Option Int := none
  errorMessage : Option String := none
  result : Option String := none
  tenantId : Option String := none
deriving DecidableEq, Repr

namespace WebhookLedger

/-- A freshly received ledger entry: pending, zero attempts, default
maxAttempts 3 (column defaults of the migration). -/
def mkWebhookEventRecord (id : Nat) (source : String) (externalEventId : Option String)
    (eventType payload : String) : WebhookEventRecord :=
  { id := id, source := source, externalEventId := externalEventId,
    eventType := eventType, payload := payload }

/-- Lookup by the (source, external_id) dedup key. -/
def findByKey (ledger : List WebhookEventRecord) (source externalEventId : String) :
    Option WebhookEventRecord :=
  ledger.find? (fun r => decide (r.source = source ∧ r.externalEventId = some externalEventId))

/-- Retry eligibility per the specification: pending, processing or failed
with attempts below maxAttempts. -/
def eligibleForProcessing (r : WebhookEventRecord) : Bool :=
  decide ((r.status = WebhookStatus.pending ∨ r.status = WebhookStatus.processing
           ∨ r.status = WebhookStatus.failed) ∧ r.attempts < r.maxAttempts)

/-- Modelled from the spec: the TypeScript ingest routine of the webhook
dedup ledger is not under src/ (only the webhook_events migration with its
UNIQUE (source, external_id) constraint is); this definition follows the
ingest contract of specification section 4.2.  Returns the new ledger, the
record for this delivery, and whether a processing attempt (and hence the
handler with its side effects) may run: false when an existing record for
the same key is processed or ignored (idempotent no-op), the eligibility
rule when it is pending, processing or failed, true for a new record. -/
def ingest (ledger : List WebhookEventRecord) (freshId : Nat) (source : String)
    (externalEventId : Option String) (eventType payload : String) :
    List WebhookEventRecord × WebhookEventRecord × Bool :=
  match externalEventId with
  | none =>
    let r := mkWebhookEventRecord freshId source none eventType payload
    (ledger ++ [r], r, true)
  | some e =>
    match findByKey ledger source e with
    | some r =>
      if r.status = WebhookStatus.processed ∨ r.status = WebhookStatus.ignored then
        (ledger, r, false)
      else
        (ledger, r, eligibleForProcessing r)
    | none =>
      let r := mkWebhookEventRecord freshId source (some e) eventType payload
      (ledger ++ [r], r, true)

/-- Modelled from the spec: attempt bookkeeping of section 4.2 (the
TypeScript processor is not under src/): increment attempts; on success
mark processed, on failure mark failed when attempts reached maxAttempts
and leave pending for a later retry otherwise. -/
def applyAttempt (success : Bool) (r : WebhookEventRecord) : WebhookEventRecord :=
  let r1 := { r with attempts := r.attempts + 1, status := WebhookStatus.processing }
  if success then { r1 with status := WebhookStatus.processed }
  else if r1.maxAttempts ≤ r1.attempts then { r1 with status := WebhookStatus.failed }
  else { r1 with status := WebhookStatus.pending }

/-- Record the outcome of a processing attempt on the identified row. -/
def recordAttempt (ledger : List WebhookEventRecord) (rid : Nat) (success : Bool) :
    List WebhookEventRecord :=
  ledger.map (fun r => if r.id = rid then applyAttempt success r else r)

/-- Two ledger rows clash when they share a source and a present
external event id (the UNIQUE (source, external_id) constraint; SQL
uniqueness does not constrain NULL external ids). -/
def keyClash (a b : WebhookEventRecord) : Prop :=
  a.source = b.source ∧ a.externalEventId ≠ none ∧ a.externalEventId = b.externalEventId

/-- The dedup invariant: no two rows of the ledger clash. -/
def UniqueLedger (ledger : List WebhookEventRecord) : Prop :=
  ledger.Pairwise (fun a b => ¬ keyClash a b)

end WebhookLedger

/-- Claim C1: isValidTransition returns true exactly for the pairs in the
adjacency table as spelled out by the specification, returns false for every
pair out of canceled (terminal state), and returns false for every
reflexive pair. -/
theorem C1_transition_table : ∀ fromStatus toStatus : BillingStatus,
    isValidTransition fromStatus toStatus = specAdjacencyPairs.contains (fromStatus, toStatus)
    ∧ isValidTransition BillingStatus.canceled toStatus = false
    ∧ isValidTransition fromStatus fromStatus = false := by
  decide

/-- Claim C2: the sync candidate-status mapping: deleted yields canceled
unconditionally; remote ACTIVE keeps a trial or pending_payment local
status and yields active otherwise; INACTIVE yields suspended; EXPIRED
yields canceled; any other remote status keeps the local status; and the
mapping never sends a trial or pending_payment tenant to active on a
remote ACTIVE snapshot. -/
theorem C2_sync_candidate_mapping :
    ∀ (sub : AsaasSubscriptionResponse) (cur : BillingStatus),
    (sub.deleted = true →
      SubscriptionService.mapAsaasStatusToBillingStatus sub cur = BillingStatus.canceled)
    ∧ (sub.deleted = false → sub.status = "ACTIVE" →
        (cur = BillingStatus.trial ∨ cur = BillingStatus.pending_payment) →
        SubscriptionService.mapAsaasStatusToBillingStatus sub cur = cur)
    ∧ (sub.deleted = false → sub.status = "ACTIVE" →
        cur ≠ BillingStatus.trial → cur ≠ BillingStatus.pending_payment →
        SubscriptionService.mapAsaasStatusToBillingStatus sub cur = BillingStatus.active)
    ∧ (sub.deleted = false → sub.status = "INACTIVE" →
        SubscriptionService.mapAsaasStatusToBillingStatus sub cur = BillingStatus.suspended)
    ∧ (sub.deleted = false → sub.status = "EXPIRED" →
        SubscriptionService.mapAsaasStatusToBillingStatus sub cur = BillingStatus.canceled)
    ∧ (sub.deleted = false → sub.status ≠ "ACTIVE" → sub.status ≠ "INACTIVE" →
        sub.status ≠ "EXPIRED" →
        SubscriptionService.mapAsaasStatusToBillingStatus sub cur = cur)
    ∧ (sub.status = "ACTIVE" → (cur = BillingStatus.trial ∨ cur = BillingStatus.pending_payment) →
        SubscriptionService.mapAsaasStatusToBillingStatus sub cur ≠ BillingStatus.active) := by
  intro sub cur
  refine ⟨?_, ?_, ?_, ?_, ?_, ?_, ?_⟩
  · intro hd
    simp [SubscriptionService.mapAsaasStatusToBillingStatus, hd]
  · intro hd hs hc
    simp only [SubscriptionService.mapAsaasStatusToBillingStatus, hd, hs, Bool.false_eq_true,
      if_false, if_true, if_pos hc]
  · intro hd hs h1 h2
    have hc : ¬ (cur = BillingStatus.trial ∨ cur = BillingStatus.pending_payment) := by
      rintro (h | h) <;> [exact h1 h; exact h2 h]
    simp only [SubscriptionService.mapAsaasStatusToBillingStatus, hd, hs, Bool.false_eq_true,
      if_false, if_true, if_neg hc]
  · intro hd hs
    simp [SubscriptionService.mapAsaasStatusToBillingStatus, hd, hs]
  · intro hd hs
    simp [SubscriptionService.mapAsaasStatusToBillingStatus, hd, hs]
  · intro hd h1 h2 h3
    simp [SubscriptionService.mapAsaasStatusToBillingStatus, hd, h1, h2, h3]
  · intro hs hc
    by_cases hd : sub.deleted
    · simp [SubscriptionService.mapAsaasStatusToBillingStatus, hd]
    · simp only [Bool.not_eq_true] at hd
      simp only [SubscriptionService.mapAsaasStatusToBillingStatus, hd, hs, Bool.false_eq_true,
        if_false, if_true, if_pos hc]
      rcases hc with h | h <;> simp [h]

/-- Witness for C2 at concrete inputs: a deleted snapshot maps to
canceled; an ACTIVE snapshot keeps trial, cannot produce active from
pending_payment, and yields active from overdue; INACTIVE yields
suspended, EXPIRED yields canceled, and an unknown status keeps the
local status. -/
theorem C2_sync_candidate_mapping_witness :
    SubscriptionService.mapAsaasStatusToBillingStatus
      { id := "s1", customer := "c1", status := "ACTIVE", deleted := true } BillingStatus.active
      = BillingStatus.canceled
    ∧ SubscriptionService.mapAsaasStatusToBillingStatus
        { id := "s1", customer := "c1", status := "ACTIVE", deleted := false } BillingStatus.trial
        = BillingStatus.trial
    ∧ SubscriptionService.mapAsaasStatusToBillingStatus
        { id := "s1", customer := "c1", status := "ACTIVE", deleted := false }
        BillingStatus.overdue = BillingStatus.active
    ∧ SubscriptionService.mapAsaasStatusToBillingStatus
        { id := "s1", customer := "c1", status := "INACTIVE", deleted := false }
        BillingStatus.active = BillingStatus.suspended
    ∧ SubscriptionService.mapAsaasStatusToBillingStatus
        { id := "s1", customer := "c1", status := "EXPIRED", deleted := false }
        BillingStatus.active = BillingStatus.canceled
    ∧ SubscriptionService.mapAsaasStatusToBillingStatus
        { id := "s1", customer := "c1", status := "SOMETHING_ELSE", deleted := false }
        BillingStatus.overdue = BillingStatus.overdue
    ∧ SubscriptionService.mapAsaasStatusToBillingStatus
        { id := "s1", customer := "c1", status := "ACTIVE", deleted := false }
        BillingStatus.pending_payment ≠ BillingStatus.active :=
  ⟨(C2_sync_candidate_mapping _ BillingStatus.active).1 rfl,
   (C2_sync_candidate_mapping _ BillingStatus.trial).2.1 rfl rfl (Or.inl rfl),
   (C2_sync_candidate_mapping _ BillingStatus.overdue).2.2.1 rfl rfl
     (by decide) (by decide),
   (C2_sync_candidate_mapping _ BillingStatus.active).2.2.2.1 rfl rfl,
   (C2_sync_candidate_mapping _ BillingStatus.active).2.2.2.2.1 rfl rfl,
   (C2_sync_candidate_mapping _ BillingStatus.overdue).2.2.2.2.2.1 rfl
     (by decide) (by decide) (by decide),
   (C2_sync_candidate_mapping _ BillingStatus.pending_payment).2.2.2.2.2.2 rfl (Or.inr rfl)⟩

/-- Claim C3: for a PAYMENT_OVERDUE event with a resolved tenant the
handler computes daysOverdue = max(0, floor((now - dueDate) / day)),
targets suspended when daysOverdue reaches the suspension threshold and
overdue otherwise, skips the transition call when the current status
already equals the target, and applies a valid transition to the target;
in particular an overdue tenant with threshold 15 and daysOverdue 16 is
suspended with metadata daysOverdue 16. -/
theorem C3_payment_overdue_handler :
    (∀ nowMs dueMs : Int,
      WebhookHandler.webhookDaysOverdue nowMs dueMs = max 0 (Int.fdiv (nowMs - dueMs) 86400000))
    ∧ (∀ th d : Int,
        SubscriptionService.overdueTarget th d
          = if d ≥ th then BillingStatus.suspended else BillingStatus.overdue)
    ∧ (∀ (th d : Int) (tb : TenantBillingData),
        tb.billingStatus = SubscriptionService.overdueTarget th d →
        SubscriptionService.handlePaymentOverdue th (some tb) d
          = (some (SubscriptionService.applyMetadataDaysOverdue tb d), none))
    ∧ (∀ (th d : Int) (tb : TenantBillingData),
        tb.billingStatus ≠ SubscriptionService.overdueTarget th d →
        isValidTransition tb.billingStatus (SubscriptionService.overdueTarget th d) = true →
        SubscriptionService.handlePaymentOverdue th (some tb) d
          = (some (SubscriptionService.applyMetadataDaysOverdue
                     { tb with billingStatus := SubscriptionService.overdueTarget th d } d), none))
    ∧ WebhookHandler.webhookDaysOverdue (16 * 86400000 + 3600000) 0 = 16
    ∧ SubscriptionService.handlePaymentOverdue 15
        (some { id := "t1", billingStatus := BillingStatus.overdue,
                subscriptionMetadata := some { planId := "p1", planName := "Pro",
                                               priceInCents := 9900, currency := "BRL",
                                               cycle := "MONTHLY", daysOverdue := some 10 } }) 16
        = (some { id := "t1", billingStatus := BillingStatus.suspended,
                  subscriptionMetadata := some { planId := "p1", planName := "Pro",
                                                 priceInCents := 9900, currency := "BRL",
                                                 cycle := "MONTHLY", daysOverdue := some 16 } },
           none) := by
  refine ⟨fun _ _ => rfl, fun _ _ => rfl, ?_, ?_, by decide, by decide⟩
  · intro th d tb h
    simp [SubscriptionService.handlePaymentOverdue, h]
  · intro th d tb hne hv
    simp [SubscriptionService.handlePaymentOverdue, hne,
      SubscriptionService.updateBillingStatus, hv, SubscriptionService.applyStatusUpdate]

/-- Witness for C3 at concrete inputs: the skip branch on an already
overdue tenant below the threshold, and the valid transition branch from
overdue to suspended at the threshold. -/
theorem C3_payment_overdue_handler_witness :
    SubscriptionService.handlePaymentOverdue 15
      (some { id := "t2", billingStatus := BillingStatus.overdue }) 10
      = (some (SubscriptionService.applyMetadataDaysOverdue
                 { id := "t2", billingStatus := BillingStatus.overdue } 10), none)
    ∧ SubscriptionService.handlePaymentOverdue 15
        (some { id := "t2", billingStatus := BillingStatus.overdue }) 15
        = (some (SubscriptionService.applyMetadataDaysOverdue
                   { id := "t2", billingStatus := BillingStatus.suspended } 15), none) :=
  ⟨C3_payment_overdue_handler.2.2.1 15 10 _ (by decide),
   C3_payment_overdue_handler.2.2.2.1 15 15 _ (by decide) (by decide)⟩

/-- Counterexample to claim C4: a trial tenant with subscription metadata
receives a PAYMENT_OVERDUE with daysOverdue 1; the chosen target overdue
is not reachable from trial, the handler throws before the metadata
write, and the stored metadata still has no daysOverdue (not 1). -/
theorem C4_metadata_counterexample :
    SubscriptionService.handlePaymentOverdue 15
      (some { id := "t3", billingStatus := BillingStatus.trial,
              subscriptionMetadata := some { planId := "p1", planName := "Pro",
                                             priceInCents := 9900, currency := "BRL",
                                             cycle := "MONTHLY", daysOverdue := none } }) 1
      = (some { id := "t3", billingStatus := BillingStatus.trial,
                subscriptionMetadata := some { planId := "p1", planName := "Pro",
                                               priceInCents := 9900, currency := "BRL",
                                               cycle := "MONTHLY", daysOverdue := none } },
         some (BillingError.invalidTransition BillingStatus.trial BillingStatus.overdue)) := by
  decide

/-- Claim C4 as amended: the computed daysOverdue is persisted in the
tenant subscription metadata when the status transition is applied or
skipped as a no-op; when the transition fails as invalid the handler
throws before the metadata write, so nothing is persisted and the record
is returned unchanged. -/
theorem C4_metadata_persistence :
    ∀ (th d : Int) (tb : TenantBillingData) (md : SubscriptionMetadata),
    tb.subscriptionMetadata = some md →
    ((tb.billingStatus = SubscriptionService.overdueTarget th d ∨
      isValidTransition tb.billingStatus (SubscriptionService.overdueTarget th d) = true) →
      ∃ tb1, (SubscriptionService.handlePaymentOverdue th (some tb) d).1 = some tb1
        ∧ tb1.subscriptionMetadata = some { md with daysOverdue := some d }
        ∧ (SubscriptionService.handlePaymentOverdue th (some tb) d).2 = none)
    ∧ (tb.billingStatus ≠ SubscriptionService.overdueTarget th d →
       isValidTransition tb.billingStatus (SubscriptionService.overdueTarget th d) = false →
       SubscriptionService.handlePaymentOverdue th (some tb) d
         = (some tb, some (BillingError.invalidTransition tb.billingStatus
              (SubscriptionService.overdueTarget th d)))) := by
  intro th d tb md hmd
  constructor
  · intro hok
    by_cases heq : tb.billingStatus = SubscriptionService.overdueTarget th d
    · refine ⟨SubscriptionService.applyMetadataDaysOverdue tb d, ?_, ?_, ?_⟩
      · simp [SubscriptionService.handlePaymentOverdue, heq]
      · simp [SubscriptionService.applyMetadataDaysOverdue, hmd]
      · simp [SubscriptionService.handlePaymentOverdue, heq]
    · have hv : isValidTransition tb.billingStatus (SubscriptionService.overdueTarget th d) = true := by
        rcases hok with h | h
        · exact absurd h heq
        · exact h
      refine ⟨SubscriptionService.applyMetadataDaysOverdue
                { tb with billingStatus := SubscriptionService.overdueTarget th d } d, ?_, ?_, ?_⟩
      · simp [SubscriptionService.handlePaymentOverdue, heq,
          SubscriptionService.updateBillingStatus, hv, SubscriptionService.applyStatusUpdate]
      · simp [SubscriptionService.applyMetadataDaysOverdue, hmd]
      · simp [SubscriptionService.handlePaymentOverdue, heq,
          SubscriptionService.updateBillingStatus, hv, SubscriptionService.applyStatusUpdate]
  · intro hne hinv
    simp [SubscriptionService.handlePaymentOverdue, hne,
      SubscriptionService.updateBillingStatus, hinv]

/-- Witness for the amended C4 at concrete inputs: persisted on the
overdue-to-suspended transition, withheld on the invalid trial case. -/
theorem C4_metadata_persistence_witness :
    (∃ tb1, (SubscriptionService.handlePaymentOverdue 15
        (some { id := "t4", billingStatus := BillingStatus.overdue,
                subscriptionMetadata := some { planId := "p1", planName := "Pro",
                                               priceInCents := 9900, currency := "BRL",
                                               cycle := "MONTHLY" } }) 20).1 = some tb1
      ∧ tb1.subscriptionMetadata = some { planId := "p1", planName := "Pro",
                                          priceInCents := 9900, currency := "BRL",
                                          cycle := "MONTHLY", daysOverdue := some 20 }
      ∧ (SubscriptionService.handlePaymentOverdue 15
          (some { id := "t4", billingStatus := BillingStatus.overdue,
                  subscriptionMetadata := some { planId := "p1", planName := "Pro",
                                                 priceInCents := 9900, currency := "BRL",
                                                 cycle := "MONTHLY" } }) 20).2 = none)
    ∧ SubscriptionService.handlePaymentOverdue 15
        (some { id := "t4", billingStatus := BillingStatus.trial,
                subscriptionMetadata := some { planId := "p1", planName := "Pro",
                                               priceInCents := 9900, currency := "BRL",
                                               cycle := "MONTHLY" } }) 2
        = (some { id := "t4", billingStatus := BillingStatus.trial,
                  subscriptionMetadata := some { planId := "p1", planName := "Pro",
                                                 priceInCents := 9900, currency := "BRL",
                                                 cycle := "MONTHLY" } },
           some (BillingError.invalidTransition BillingStatus.trial BillingStatus.overdue)) :=
  ⟨(C4_metadata_persistence 15 20
      { id := "t4", billingStatus := BillingStatus.overdue,
        subscriptionMetadata := some { planId := "p1", planName := "Pro",
                                       priceInCents := 9900, currency := "BRL",
                                       cycle := "MONTHLY" } }
      { planId := "p1", planName := "Pro", priceInCents := 9900, currency := "BRL",
        cycle := "MONTHLY" } rfl).1 (Or.inr (by decide)),
   (C4_metadata_persistence 15 2
      { id := "t4", billingStatus := BillingStatus.trial,
        subscriptionMetadata := some { planId := "p1", planName := "Pro",
                                       priceInCents := 9900, currency := "BRL",
                                       cycle := "MONTHLY" } }
      { planId := "p1", planName := "Pro", priceInCents := 9900, currency := "BRL",
        cycle := "MONTHLY" } rfl).2 (by decide) (by decide)⟩

/-- Claim C5: a tenant whose billing status is canceled receiving a
PAYMENT_CONFIRMED event makes the handler raise
InvalidTransition(canceled, active); handleEvent catches it and returns a
structured result with success false carrying the error, and the stored
record (status and metadata) is unchanged. -/
theorem C5_payment_confirmed_on_canceled :
    ∀ (env : BillingEnv) (tb : TenantBillingData) (p : AsaasPaymentPayload) (tok : Option String),
    tb.billingStatus = BillingStatus.canceled →
    WebhookHandler.validateAccessToken env.webhookAccessToken tok = true →
    WebhookHandler.resolvePaymentTenant env (some tb) p = some tb →
    WebhookHandler.handleEvent env (some tb) { event := "PAYMENT_CONFIRMED", payment := some p } tok
      = (some tb,
         { success := false, eventType := "PAYMENT_CONFIRMED",
           error := some (BillingError.invalidTransition BillingStatus.canceled
                            BillingStatus.active) }) := by
  intro env tb p tok hst hva hres
  have h1 : isAsaasEventType "PAYMENT_CONFIRMED" = true := by decide
  have h2 : isPaymentEvent "PAYMENT_CONFIRMED" = true := by decide
  simp [WebhookHandler.handleEvent, hva, h1, h2, WebhookHandler.handlePaymentEvent, hres,
    WebhookHandler.handlePaymentConfirmed, SubscriptionService.handlePaymentConfirmed,
    SubscriptionService.updateBillingStatus, hst, isValidTransition, billingStatusTransitions]

/-- Witness for C5 at a concrete canceled tenant resolved by customer id. -/
theorem C5_payment_confirmed_on_canceled_witness :
    WebhookHandler.handleEvent
      { nowMs := 0, customerIds := ["c1"] }
      (some { id := "t5", billingStatus := BillingStatus.canceled })
      { event := "PAYMENT_CONFIRMED",
        payment := some { id := "pay1", customer := "c1", dueDate := 0 } }
      none
      = (some { id := "t5", billingStatus := BillingStatus.canceled },
         { success := false, eventType := "PAYMENT_CONFIRMED",
           error := some (BillingError.invalidTransition BillingStatus.canceled
                            BillingStatus.active) }) :=
  C5_payment_confirmed_on_canceled { nowMs := 0, customerIds := ["c1"] }
    { id := "t5", billingStatus := BillingStatus.canceled }
    { id := "pay1", customer := "c1", dueDate := 0 } none rfl rfl (by decide)

/-- Claim C6: handleEvent fails closed (success false, WebhookInvalid
error, store untouched) when a configured nonempty access token
mismatches, and when the event type is not a known AsaasEventType; for
every known event type that has neither the PAYMENT_ nor the
SUBSCRIPTION_ prefix it acknowledges with success true and action
ignored. -/
theorem C6_handle_event_validation :
    (∀ (env : BillingEnv) (store : Option TenantBillingData) (ev : AsaasWebhookEvent)
       (tok : Option String) (ct : String),
      env.webhookAccessToken = some ct → ct ≠ "" → tok ≠ some ct →
      WebhookHandler.handleEvent env store ev tok
        = (store, { success := false, eventType := ev.event,
                    error := some (BillingError.webhookInvalid
                                     "Invalid webhook access token" none) }))
    ∧ (∀ (env : BillingEnv) (store : Option TenantBillingData) (ev : AsaasWebhookEvent)
         (tok : Option String),
        WebhookHandler.validateAccessToken env.webhookAccessToken tok = true →
        isAsaasEventType ev.event = false →
        WebhookHandler.handleEvent env store ev tok
          = (store, { success := false, eventType := ev.event,
                      error := some (BillingError.webhookInvalid
                                       "Unknown event type" (some ev.event)) }))
    ∧ (∀ (env : BillingEnv) (store : Option TenantBillingData) (ev : AsaasWebhookEvent)
         (tok : Option String),
        WebhookHandler.validateAccessToken env.webhookAccessToken tok = true →
        isAsaasEventType ev.event = true →
        isPaymentEvent ev.event = false →
        isSubscriptionEvent ev.event = false →
        WebhookHandler.handleEvent env store ev tok
          = (store, { success := true, eventType := ev.event,
                      action := some "ignored" })) := by
  refine ⟨?_, ?_, ?_⟩
  · intro env store ev tok ct henv hct htok
    have hv : WebhookHandler.validateAccessToken env.webhookAccessToken tok = false := by
      simp [WebhookHandler.validateAccessToken, henv, hct, htok]
    simp [WebhookHandler.handleEvent, hv]
  · intro env store ev tok hva hunk
    simp [WebhookHandler.handleEvent, hva, hunk]
  · intro env store ev tok hva hknown hpay hsub
    simp [WebhookHandler.handleEvent, hva, hknown, hpay, hsub]

/-- Witness for C6 at concrete inputs: a mismatching token, an unknown
event type, and a known but unmodeled TRANSFER_DONE event. -/
theorem C6_handle_event_validation_witness :
    WebhookHandler.handleEvent { webhookAccessToken := some "secret", nowMs := 0 }
      (some { id := "t6", billingStatus := BillingStatus.active })
      { event := "PAYMENT_CONFIRMED" } (some "wrong")
      = (some { id := "t6", billingStatus := BillingStatus.active },
         { success := false, eventType := "PAYMENT_CONFIRMED",
           error := some (BillingError.webhookInvalid "Invalid webhook access token" none) })
    ∧ WebhookHandler.handleEvent { nowMs := 0 }
        (some { id := "t6", billingStatus := BillingStatus.active })
        { event := "NOT_A_REAL_EVENT" } none
        = (some { id := "t6", billingStatus := BillingStatus.active },
           { success := false, eventType := "NOT_A_REAL_EVENT",
             error := some (BillingError.webhookInvalid
                              "Unknown event type" (some "NOT_A_REAL_EVENT")) })
    ∧ WebhookHandler.handleEvent { nowMs := 0 }
        (some { id := "t6", billingStatus := BillingStatus.active })
        { event := "TRANSFER_DONE" } none
        = (some { id := "t6", billingStatus := BillingStatus.active },
           { success := true, eventType := "TRANSFER_DONE", action := some "ignored" }) :=
  ⟨C6_handle_event_validation.1 { webhookAccessToken := some "secret", nowMs := 0 }
      (some { id := "t6", billingStatus := BillingStatus.active })
      { event := "PAYMENT_CONFIRMED" } (some "wrong") "secret" rfl (by decide) (by decide),
   C6_handle_event_validation.2.1 { nowMs := 0 }
      (some { id := "t6", billingStatus := BillingStatus.active })
      { event := "NOT_A_REAL_EVENT" } none rfl (by decide),
   C6_handle_event_validation.2.2 { nowMs := 0 }
      (some { id := "t6", billingStatus := BillingStatus.active })
      { event := "TRANSFER_DONE" } none rfl (by decide) (by decide) (by decide)⟩

/-- Claim C10: an active tenant receiving a PAYMENT_OVERDUE whose computed
daysOverdue reaches the suspension threshold is not suspended: suspended
is unreachable from active, so the handler raises
InvalidBillingTransitionError before any store update, handleEvent
reports success false, and the stored status remains active. -/
theorem C10_active_not_directly_suspended :
    ∀ (env : BillingEnv) (tb : TenantBillingData) (p : AsaasPaymentPayload) (tok : Option String),
    tb.billingStatus = BillingStatus.active →
    WebhookHandler.validateAccessToken env.webhookAccessToken tok = true →
    WebhookHandler.resolvePaymentTenant env (some tb) p = some tb →
    env.daysUntilSuspension ≤ WebhookHandler.webhookDaysOverdue env.nowMs p.dueDate →
    isValidTransition BillingStatus.active BillingStatus.suspended = false
    ∧ WebhookHandler.handleEvent env (some tb)
        { event := "PAYMENT_OVERDUE", payment := some p } tok
      = (some tb,
         { success := false, eventType := "PAYMENT_OVERDUE",
           error := some (BillingError.invalidTransition BillingStatus.active
                            BillingStatus.suspended) }) := by
  intro env tb p tok hst hva hres hth
  refine ⟨by decide, ?_⟩
  have h1 : isAsaasEventType "PAYMENT_OVERDUE" = true := by decide
  have h2 : isPaymentEvent "PAYMENT_OVERDUE" = true := by decide
  have htar : SubscriptionService.overdueTarget env.daysUntilSuspension
      (WebhookHandler.webhookDaysOverdue env.nowMs p.dueDate) = BillingStatus.suspended := by
    simp [SubscriptionService.overdueTarget, hth]
  have hserv : SubscriptionService.handlePaymentOverdue env.daysUntilSuspension (some tb)
      (WebhookHandler.webhookDaysOverdue env.nowMs p.dueDate)
      = (some tb, some (BillingError.invalidTransition BillingStatus.active
                          BillingStatus.suspended)) := by
    simp [SubscriptionService.handlePaymentOverdue, htar, hst,
      SubscriptionService.updateBillingStatus, isValidTransition, billingStatusTransitions]
  simp [WebhookHandler.handleEvent, hva, h1, h2, WebhookHandler.handlePaymentEvent, hres,
    WebhookHandler.handlePaymentOverdue, hserv]

/-- Witness for C10: an active tenant, due date 20 days in the past and
the default threshold 15. -/
theorem C10_active_not_directly_suspended_witness :
    isValidTransition BillingStatus.active BillingStatus.suspended = false
    ∧ WebhookHandler.handleEvent { nowMs := 20 * 86400000, customerIds := ["c1"] }
        (some { id := "t10", billingStatus := BillingStatus.active })
        { event := "PAYMENT_OVERDUE",
          payment := some { id := "pay2", customer := "c1", dueDate := 0 } } none
      = (some { id := "t10", billingStatus := BillingStatus.active },
         { success := false, eventType := "PAYMENT_OVERDUE",
           error := some (BillingError.invalidTransition BillingStatus.active
                            BillingStatus.suspended) }) :=
  C10_active_not_directly_suspended { nowMs := 20 * 86400000, customerIds := ["c1"] }
    { id := "t10", billingStatus := BillingStatus.active }
    { id := "pay2", customer := "c1", dueDate := 0 } none rfl rfl (by decide) (by decide)

/-- Counterexample to claim C7 as stated: a SUBSCRIPTION_CANCELED webhook
for a tenant already canceled locally does fall back to sync, but when
the remote snapshot still reports ACTIVE (not deleted) the sync fallback
itself raises InvalidTransition(canceled, active) inside the catch block,
and handleEvent returns success false with that error surfaced. -/
theorem C7_subscription_canceled_counterexample :
    WebhookHandler.handleEvent
      { nowMs := 0, subscriptionIds := ["sub1"],
        getSubscription := fun _ => some { id := "sub1", customer := "c1",
                                           status := "ACTIVE", deleted := false } }
      (some { id := "t7", asaasSubscriptionId := some "sub1",
              billingStatus := BillingStatus.canceled })
      { event := "SUBSCRIPTION_CANCELED",
        subscription := some { id := "sub1", customer := "c1", status := "ACTIVE" } }
      none
      = (some { id := "t7", asaasSubscriptionId := some "sub1",
                billingStatus := BillingStatus.canceled },
         { success := false, eventType := "SUBSCRIPTION_CANCELED",
           error := some (BillingError.invalidTransition BillingStatus.canceled
                            BillingStatus.active) }) := by
  decide

/-- Claim C7 as amended: for a SUBSCRIPTION_CANCELED event whose resolved
tenant is already canceled locally, the cancellation attempt always
fails, and the handler falls back to sync; the returned result is success
true with no error surfaced provided the sync candidate for the canceled
tenant is canceled itself (remote snapshot deleted, EXPIRED or an
unknown status) or the tenant has no bound subscription id. -/
theorem C7_subscription_canceled_redelivery :
    ∀ (env : BillingEnv) (tb : TenantBillingData) (sp : AsaasSubscriptionPayload)
      (tok : Option String),
    tb.billingStatus = BillingStatus.canceled →
    WebhookHandler.validateAccessToken env.webhookAccessToken tok = true →
    WebhookHandler.resolveSubscriptionTenant env (some tb) sp = some tb →
    (∃ e, (SubscriptionService.cancelSubscription env.cancelRemoteOk (some tb)).2
            = Except.error e)
    ∧ ((tb.asaasSubscriptionId = none ∨
        (∃ sid sub, tb.asaasSubscriptionId = some sid ∧ env.getSubscription sid = some sub ∧
          SubscriptionService.mapAsaasStatusToBillingStatus sub BillingStatus.canceled
            = BillingStatus.canceled)) →
       (WebhookHandler.handleEvent env (some tb)
           { event := "SUBSCRIPTION_CANCELED", subscription := some sp } tok).2.success = true
       ∧ (WebhookHandler.handleEvent env (some tb)
           { event := "SUBSCRIPTION_CANCELED", subscription := some sp } tok).2.error = none) := by
  intro env tb sp tok hst hva hres
  have hcancel : ∃ e, SubscriptionService.cancelSubscription env.cancelRemoteOk (some tb)
      = (some tb, Except.error e) := by
    cases hsub : tb.asaasSubscriptionId with
    | none =>
      exact ⟨BillingError.subscriptionCancellation "unknown" "Tenant has no active subscription",
        by simp [SubscriptionService.cancelSubscription, hsub]⟩
    | some sid =>
      refine ⟨BillingError.invalidTransition tb.billingStatus BillingStatus.canceled, ?_⟩
      simp [SubscriptionService.cancelSubscription, hsub, hst,
        isValidTransition, billingStatusTransitions]
  obtain ⟨e, hcancel⟩ := hcancel
  refine ⟨⟨e, by rw [hcancel]⟩, ?_⟩
  intro hok
  have hsync : ∃ st r, SubscriptionService.syncSubscriptionStatus env.getSubscription (some tb)
      = (st, Except.ok r) := by
    rcases hok with hnone | ⟨sid, sub, hsid, hget, hmap⟩
    · exact ⟨some tb, tb, by simp [SubscriptionService.syncSubscriptionStatus, hnone]⟩
    · cases hmd : tb.subscriptionMetadata with
      | none =>
        exact ⟨some tb, tb, by
          simp [SubscriptionService.syncSubscriptionStatus, hsid, hget, hst, hmap, hmd,
            SubscriptionService.applyStatusUpdate]⟩
      | some md =>
        cases hnd : sub.nextDueDate with
        | none =>
          exact ⟨some tb, tb, by
            simp [SubscriptionService.syncSubscriptionStatus, hsid, hget, hst, hmap, hmd, hnd,
              SubscriptionService.applyStatusUpdate]⟩
        | some nd =>
          exact ⟨some { tb with subscriptionMetadata := some { md with nextBillingDate := some nd } },
                 { tb with subscriptionMetadata := some { md with nextBillingDate := some nd } }, by
            simp [SubscriptionService.syncSubscriptionStatus, hsid, hget, hst, hmap, hmd, hnd,
              SubscriptionService.applyStatusUpdate]⟩
  obtain ⟨st, r, hsync⟩ := hsync
  have hhandle : WebhookHandler.handleSubscriptionCanceled env (some tb) tb
      = (st, Except.ok { success := true, eventType := "SUBSCRIPTION_CANCELED",
                         tenantId := some tb.id, action := some "tenant_canceled" }) := by
    simp [WebhookHandler.handleSubscriptionCanceled, hcancel, hsync]
  have h1 : isAsaasEventType "SUBSCRIPTION_CANCELED" = true := by decide
  have h2 : isPaymentEvent "SUBSCRIPTION_CANCELED" = false := by decide
  have h3 : isSubscriptionEvent "SUBSCRIPTION_CANCELED" = true := by decide
  simp [WebhookHandler.handleEvent, hva, h1, h2, h3,
    WebhookHandler.handleSubscriptionEvent, hres, hhandle]

/-- Witness for the amended C7: a canceled tenant whose remote snapshot
is deleted; the redelivered cancellation is acknowledged with success
and no error. -/
theorem C7_subscription_canceled_redelivery_witness :
    (WebhookHandler.handleEvent
       { nowMs := 0, subscriptionIds := ["sub1"],
         getSubscription := fun _ => some { id := "sub1", customer := "c1",
                                            status := "ACTIVE", deleted := true } }
       (some { id := "t7b", asaasSubscriptionId := some "sub1",
               billingStatus := BillingStatus.canceled })
       { event := "SUBSCRIPTION_CANCELED",
         subscription := some { id := "sub1", customer := "c1", status := "ACTIVE" } }
       none).2.success = true
    ∧ (WebhookHandler.handleEvent
         { nowMs := 0, subscriptionIds := ["sub1"],
           getSubscription := fun _ => some { id := "sub1", customer := "c1",
                                              status := "ACTIVE", deleted := true } }
         (some { id := "t7b", asaasSubscriptionId := some "sub1",
                 billingStatus := BillingStatus.canceled })
         { event := "SUBSCRIPTION_CANCELED",
           subscription := some { id := "sub1", customer := "c1", status := "ACTIVE" } }
         none).2.error = none := by
  have h := C7_subscription_canceled_redelivery
    { nowMs := 0, subscriptionIds := ["sub1"],
      getSubscription := fun _ => some { id := "sub1", customer := "c1",
                                         status := "ACTIVE", deleted := true } }
    { id := "t7b", asaasSubscriptionId := some "sub1",
      billingStatus := BillingStatus.canceled }
    { id := "sub1", customer := "c1", status := "ACTIVE" } none rfl rfl (by decide)
  exact h.2 (Or.inr ⟨"sub1", _, rfl, rfl, by decide⟩)

/-- Claim C8: the access projection is a pure function of the record:
subscriptionActive holds exactly for active and trial, inTrial exactly
for trial, isOverdue exactly for overdue, isSuspended exactly for
suspended and canceled, and daysOverdue is copied from the subscription
metadata when present. -/
theorem C8_access_projection :
    ∀ (b : TenantBillingData) (ctx : BillingContext),
    BillingEnforcer.getBillingContext (some b) = some ctx →
    (ctx.subscriptionActive = true ↔
      (b.billingStatus = BillingStatus.active ∨ b.billingStatus = BillingStatus.trial))
    ∧ (ctx.inTrial = true ↔ b.billingStatus = BillingStatus.trial)
    ∧ (ctx.isOverdue = true ↔ b.billingStatus = BillingStatus.overdue)
    ∧ (ctx.isSuspended = true ↔
        (b.billingStatus = BillingStatus.suspended ∨ b.billingStatus = BillingStatus.canceled))
    ∧ ctx.daysOverdue = Option.bind b.subscriptionMetadata SubscriptionMetadata.daysOverdue
    ∧ ctx.tenantId = b.id ∧ ctx.billingStatus = b.billingStatus := by
  intro b ctx h
  simp only [BillingEnforcer.getBillingContext, Option.some.injEq] at h
  subst h
  obtain ⟨i, ac, asub, st, md⟩ := b
  cases st <;> simp [hasFullAccess]

/-- Witness for C8 at a concrete suspended tenant with daysOverdue 5. -/
theorem C8_access_projection_witness :
    ∃ ctx, BillingEnforcer.getBillingContext
        (some { id := "t8", billingStatus := BillingStatus.suspended,
                subscriptionMetadata := some { planId := "p1", planName := "Pro",
                                               priceInCents := 9900, currency := "BRL",
                                               cycle := "MONTHLY", daysOverdue := some 5 } })
        = some ctx
      ∧ ctx.isSuspended = true ∧ ctx.inTrial = false ∧ ctx.daysOverdue = some 5 := by
  refine ⟨_, rfl, ?_, ?_, ?_⟩
  · exact (C8_access_projection
      { id := "t8", billingStatus := BillingStatus.suspended,
        subscriptionMetadata := some { planId := "p1", planName := "Pro",
                                       priceInCents := 9900, currency := "BRL",
                                       cycle := "MONTHLY", daysOverdue := some 5 } }
      _ rfl).2.2.2.1.mpr (Or.inl rfl)
  · have h := (C8_access_projection
      { id := "t8", billingStatus := BillingStatus.suspended,
        subscriptionMetadata := some { planId := "p1", planName := "Pro",
                                       priceInCents := 9900, currency := "BRL",
                                       cycle := "MONTHLY", daysOverdue := some 5 } }
      _ rfl).2.1
    simp only [h]
    decide
  · exact ((C8_access_projection
      { id := "t8", billingStatus := BillingStatus.suspended,
        subscriptionMetadata := some { planId := "p1", planName := "Pro",
                                       priceInCents := 9900, currency := "BRL",
                                       cycle := "MONTHLY", daysOverdue := some 5 } }
      _ rfl).2.2.2.2.1).trans rfl

/-- Claim C9: the dedup ledger holds at most one record per
(source, externalEventId) — ingest and attempt bookkeeping preserve the
uniqueness invariant — and a re-delivered webhook whose existing record
is processed or ignored is returned unchanged with no processing run, so
handler side effects are never applied twice; a successful attempt marks
the record processed, which is what short-circuits the re-delivery. -/
theorem C9_dedup_ledger :
    (∀ (ledger : List WebhookEventRecord) (freshId : Nat) (source : String)
       (extId : Option String) (eventType payload : String),
      WebhookLedger.UniqueLedger ledger →
      WebhookLedger.UniqueLedger
        (WebhookLedger.ingest ledger freshId source extId eventType payload).1)
    ∧ (∀ (ledger : List WebhookEventRecord) (freshId : Nat)
         (source e eventType payload : String) (r : WebhookEventRecord),
        WebhookLedger.findByKey ledger source e = some r →
        (r.status = WebhookStatus.processed ∨ r.status = WebhookStatus.ignored) →
        WebhookLedger.ingest ledger freshId source (some e) eventType payload
          = (ledger, r, false))
    ∧ (∀ r : WebhookEventRecord,
        (WebhookLedger.applyAttempt true r).status = WebhookStatus.processed)
    ∧ (∀ (ledger : List WebhookEventRecord) (rid : Nat) (ok : Bool),
        WebhookLedger.UniqueLedger ledger →
        WebhookLedger.UniqueLedger (WebhookLedger.recordAttempt ledger rid ok)) := by
  refine ⟨?_, ?_, fun r => rfl, ?_⟩
  · intro ledger freshId source extId eventType payload h
    cases extId with
    | none =>
      simp only [WebhookLedger.ingest]
      refine List.pairwise_append.mpr ⟨h, List.pairwise_singleton _ _, ?_⟩
      intro a _ b hb
      simp only [List.mem_singleton] at hb
      subst hb
      rintro ⟨_, hne, heq⟩
      exact hne heq
    | some e =>
      cases hf : WebhookLedger.findByKey ledger source e with
      | some r =>
        simp only [WebhookLedger.ingest, hf]
        split <;> exact h
      | none =>
        simp only [WebhookLedger.ingest, hf]
        refine List.pairwise_append.mpr ⟨h, List.pairwise_singleton _ _, ?_⟩
        intro a ha b hb
        simp only [List.mem_singleton] at hb
        subst hb
        rintro ⟨hsrc, hne, heq⟩
        have hnone := List.find?_eq_none.mp hf a ha
        simp only [WebhookLedger.mkWebhookEventRecord] at hsrc heq
        exact hnone (by simp [hsrc, heq])
  · intro ledger freshId source e eventType payload r hf hstat
    simp only [WebhookLedger.ingest, hf, if_pos hstat]
  · intro ledger rid ok h
    have psource : ∀ y : WebhookEventRecord,
        (WebhookLedger.applyAttempt ok y).source = y.source := by
      intro y
      simp only [WebhookLedger.applyAttempt]
      split
      · rfl
      · split <;> rfl
    have pext : ∀ y : WebhookEventRecord,
        (WebhookLedger.applyAttempt ok y).externalEventId = y.externalEventId := by
      intro y
      simp only [WebhookLedger.applyAttempt]
      split
      · rfl
      · split <;> rfl
    have fsource : ∀ x : WebhookEventRecord,
        (if x.id = rid then WebhookLedger.applyAttempt ok x else x).source = x.source := by
      intro x
      split
      · exact psource x
      · rfl
    have fext : ∀ x : WebhookEventRecord,
        (if x.id = rid then WebhookLedger.applyAttempt ok x else x).externalEventId
          = x.externalEventId := by
      intro x
      split
      · exact pext x
      · rfl
    refine List.pairwise_map.mpr (h.imp ?_)
    intro a b hnc hc
    apply hnc
    obtain ⟨h1, h2, h3⟩ := hc
    rw [fsource, fsource] at h1
    rw [fext] at h2
    rw [fext, fext] at h3
    exact ⟨h1, h2, h3⟩

/-- Witness for C9: ingesting a fresh event keeps the empty ledger
unique, re-delivering an event whose record is already processed returns
that record unchanged with no processing run, and recording an attempt
keeps a singleton ledger unique. -/
theorem C9_dedup_ledger_witness :
    WebhookLedger.UniqueLedger
      (WebhookLedger.ingest [] 1 "asaas" (some "evt_1") "PAYMENT_CONFIRMED" "").1
    ∧ WebhookLedger.UniqueLedger
        (WebhookLedger.recordAttempt
          [{ id := 1, source := "asaas", externalEventId := some "evt_1",
             eventType := "PAYMENT_CONFIRMED" }] 1 true)
    ∧ WebhookLedger.ingest
        [{ id := 1, source := "asaas", externalEventId := some "evt_1",
           eventType := "PAYMENT_CONFIRMED", status := WebhookStatus.processed }]
        2 "asaas" (some "evt_1") "PAYMENT_CONFIRMED" ""
      = ([{ id := 1, source := "asaas", externalEventId := some "evt_1",
            eventType := "PAYMENT_CONFIRMED", status := WebhookStatus.processed }],
         { id := 1, source := "asaas", externalEventId := some "evt_1",
           eventType := "PAYMENT_CONFIRMED", status := WebhookStatus.processed },
         false) :=
  ⟨C9_dedup_ledger.1 [] 1 "asaas" (some "evt_1") "PAYMENT_CONFIRMED" "" List.Pairwise.nil,
   C9_dedup_ledger.2.2.2
     [{ id := 1, source := "asaas", externalEventId := some "evt_1",
        eventType := "PAYMENT_CONFIRMED" }] 1 true (List.pairwise_singleton _ _),
   C9_dedup_ledger.2.1
     [{ id := 1, source := "asaas", externalEventId := some "evt_1",
        eventType := "PAYMENT_CONFIRMED", status := WebhookStatus.processed }]
     2 "asaas" "evt_1" "PAYMENT_CONFIRMED" ""
     { id := 1, source := "asaas", externalEventId := some "evt_1",
       eventType := "PAYMENT_CONFIRMED", status := WebhookStatus.processed }
     (by decide) (Or.inl rfl)⟩
